import Mathlib

/-!
Verification of the lavadantic base model (src/lava-model.py): a typed-record
mapping layer over a schemaless document store.  The Python source is embedded
shallowly below: pure functions become Lean functions, exceptions become
`Except`, the external Firestore collection becomes an explicit association
list, and the external pydantic validation engine becomes an explicit
`validate` function parameter (its boundary contract: given an untyped
mapping, it either produces the validated field mapping or fails).
-/

set_option linter.unusedVariables false

namespace Lava

/-- Untyped values stored in document fields. -/
inductive Value where
  | vstr (s : String)
  | vint (n : Int)
  | vbool (b : Bool)
deriving DecidableEq, Repr

/-- An untyped mapping of field name to value (`dict` in the source). -/
abbrev Mapping := List (String × Value)

/-- Key lookup in a mapping. -/
def Mapping.lookup (m : Mapping) (k : String) : Option Value :=
  (m.find? (fun kv => kv.1 == k)).map (fun kv => kv.2)

/-- Errors raised by the source, one constructor per Python exception kind:
`MultipleValuesLavaException`, `ValueError` (the shape errors),
`TypeError` (duplicate keyword argument), `AttributeError` (missing method),
and the pydantic validation error. -/
inductive LavaError where
  | multipleValues (msg : String)
  | valueError (msg : String)
  | typeError (msg : String)
  | attributeError (msg : String)
  | validationError
deriving DecidableEq, Repr

/-- A raw Firestore document handle (`BaseDocumentReference` after `.get()`):
an identity, an existence flag, and the content mapping `to_dict()` returns. -/
structure Doc where
  id : String
  exists_ : Bool
  content : Mapping
deriving DecidableEq, Repr

/-- A validated typed record: the mandatory `id` plus the schema fields. -/
structure Record where
  id : String
  fields : Mapping
deriving DecidableEq, Repr

/-- The external Firestore collection handle, modelled as an association list
from document identity to stored mapping. -/
structure Collection where
  docs : List (String × Mapping)
deriving DecidableEq, Repr

/-- Stored mapping for an identity, if a document with that identity exists. -/
def Collection.lookup (c : Collection) (id : String) : Option Mapping :=
  (c.docs.find? (fun kv => kv.1 == id)).map (fun kv => kv.2)

/-- `collection.document(id).get()`: a handle whose `exists` flag reports
whether a document with that identity is present. -/
def Collection.getDoc (c : Collection) (id : String) : Doc :=
  match c.lookup id with
  | some m => ⟨id, true, m⟩
  | none => ⟨id, false, []⟩

/-- `collection.where(field, "==", value).get()`: the (finite, ordered) list
of handles for documents whose `field` equals `value`. -/
def Collection.whereEq (c : Collection) (field : String) (value : Value) :
    List Doc :=
  (c.docs.filter (fun kv => Mapping.lookup kv.2 field == some value)).map
    (fun kv => ⟨kv.1, true, kv.2⟩)

/-- The boundary contract of the external pydantic validation engine: given
the keyword mapping, produce the validated field content or fail. -/
abbrev Validator := Mapping → Option Mapping

/-- The pydantic constructor call `cls(id=id, **d)` once keyword passing has
succeeded: validate the mapping, producing a record whose `id` is the `id`
keyword and whose fields are the validated content. -/
def modelInit (validate : Validator) (id : String) (d : Mapping) :
    Except LavaError Record :=
  match validate d with
  | some fs => .ok ⟨id, fs⟩
  | none => .error .validationError

/-- `BaseModel.from_dict(id, _dict)`, i.e. `cls(id=id, **_dict)`.  If `_dict`
itself carries an `id` key, Python rejects the call with
`TypeError: got multiple values for keyword argument` before any validation
runs; otherwise the pydantic constructor decides. -/
def from_dict (validate : Validator) (id : String) (d : Mapping) :
    Except LavaError Record :=
  if d.any (fun kv => kv.1 == "id") then
    .error (.typeError "got multiple values for keyword argument id")
  else
    modelInit validate id d

/-- `BaseModel.get_from_firestore_document(doc)`:
`cls.from_dict(doc.id, doc.to_dict())`. -/
def get_from_firestore_document (validate : Validator) (doc : Doc) :
    Except LavaError Record :=
  from_dict validate doc.id doc.content

/-- `BaseModel.get_from_firestore_documents(docs)`: the list comprehension
`[cls.get_from_firestore_document(doc) for doc in docs]` — elements are
converted left to right and the first raised exception aborts the whole
comprehension with no partial result. -/
def get_from_firestore_documents (validate : Validator) :
    List Doc → Except LavaError (List Record)
  | [] => .ok []
  | doc :: rest =>
      match get_from_firestore_document validate doc with
      | .error e => .error e
      | .ok r =>
          match get_from_firestore_documents validate rest with
          | .error e => .error e
          | .ok rs => .ok (r :: rs)

/-- `BaseModel.stream_from_firestore_documents(docs)`: the generator
expression `(cls.get_from_firestore_document(doc) for doc in docs)` — a lazy
sequence whose elements are converted only when pulled, so each pull yields
that element's own conversion outcome. -/
def stream_from_firestore_documents (validate : Validator) (docs : List Doc) :
    List (Except LavaError Record) :=
  docs.map (get_from_firestore_document validate)

/-- The shape of a value returned by a caller-supplied data-access operation,
as discriminated by the `isinstance` chain inside `lavaify`: a `list` of
document handles, a `Generator` of document handles (its elements listed in
yield order), a single `BaseDocumentReference`, or anything else. -/
inductive FuncResult where
  | list (docs : List Doc)
  | generator (docs : List Doc)
  | single (doc : Doc)
  | other
deriving Repr

/-- The value a successful run of the inner wrapped function returns: a list
of records, a lazy stream of records (each pull yields that element's own
conversion outcome), a single record, or Python `None`. -/
inductive LavaValue where
  | many (rs : List Record)
  | stream (rs : List (Except LavaError Record))
  | one (r : Record)
  | noValue
deriving Repr

/-- The body of the inner function `func` defined inside `lavaify`'s
`wrapper` (source lines 99-137), applied to the value `val = f()`:
shape-classify `val` and convert, enforcing the zero-or-one cardinality
constraint when `enforce_one_or_none` is set. -/
def funcImpl (validate : Validator) (enforce_one_or_none : Bool)
    (val : FuncResult) : Except LavaError LavaValue :=
  if !enforce_one_or_none then
    match val with
    | .list docs => (get_from_firestore_documents validate docs).map .many
    | .generator docs =>
        .ok (.stream (stream_from_firestore_documents validate docs))
    | .single doc => (get_from_firestore_document validate doc).map .one
    | .other =>
        .error (.valueError "Invalid document type, must be a single firestore document, or a list or generator of firestore documents")
  else
    match val with
    | .list docs =>
        if docs.length > 1 then
          .error (.multipleValues "multiple values present, expected a single value")
        else if h : docs.length = 1 then
          (get_from_firestore_document validate (docs.get ⟨0, by omega⟩)).map .one
        else
          .ok .noValue
    | .generator gdocs =>
        -- `val = [*val]`: the generator is drained completely into a list
        -- before the cardinality check
        let docs := gdocs
        if docs.length > 1 then
          .error (.multipleValues "multiple values present, expected a single value")
        else if h : docs.length = 1 then
          (get_from_firestore_document validate (docs.get ⟨0, by omega⟩)).map .one
        else
          .ok .noValue
    | _ =>
        .error (.valueError "Invalid document type, must be  a list or generator of firestore documents, when enforce_one_or_none is true")

/-- The decorator `wrapper` returned by `lavaify(enforce_one_or_none)`
(source lines 97-139).  Applied to a function `f`, it defines the inner
function `func` — and then ends without a `return` statement, so the call
`wrapper(f)` evaluates to Python `None` rather than to `func`. -/
def wrapper (validate : Validator) (enforce_one_or_none : Bool)
    (f : Unit → FuncResult) :
    Option (Unit → Except LavaError LavaValue) :=
  let func : Unit → Except LavaError LavaValue :=
    fun _ => funcImpl validate enforce_one_or_none (f ())
  none

/-- The argument of `lavaify`: either the boolean flag, or (when used as a
bare decorator `@lavaify`) the decorated function itself. -/
inductive LavaifyArg where
  | flag (b : Bool)
  | fn (f : Unit → FuncResult)

/-- The return value of `lavaify`: the decorator `wrapper` in the flag case,
or the already-wrapped result in the bare-decorator case. -/
inductive LavaifyRet where
  | decorator (w : (Unit → FuncResult) → Option (Unit → Except LavaError LavaValue))
  | wrapped (r : Option (Unit → Except LavaError LavaValue))

/-- `BaseModel.lavaify(enforce_one_or_none=False)`: if the argument is
callable, return `cls.lavaify()(enforce_one_or_none)`; otherwise return the
decorator `wrapper`. -/
def lavaify (validate : Validator) : LavaifyArg → LavaifyRet
  | .fn f => .wrapped (wrapper validate false f)
  | .flag b => .decorator (wrapper validate b)

/-- `BaseModel.get_by_id(id)`: fetch the handle for `id`; if the document
exists, convert it, otherwise return Python `None`. -/
def get_by_id (validate : Validator) (c : Collection) (id : String) :
    Except LavaError (Option Record) :=
  let doc := c.getDoc id
  if doc.exists_ then
    (get_from_firestore_document validate doc).map some
  else
    .ok none

/-- `BaseModel.get_one_or_none_where(param_check, param_value)`: materialize
the equality-query result set; more than one match raises
`MultipleValuesLavaException`, exactly one match is converted and returned,
no match returns Python `None`. -/
def get_one_or_none_where (validate : Validator) (c : Collection)
    (param_check : String) (param_value : Value) :
    Except LavaError (Option Record) :=
  let values := c.whereEq param_check param_value
  if values.length > 1 then
    .error (.multipleValues "multiple values exist, expected only one value")
  else if h : values.length = 1 then
    (get_from_firestore_document validate (values.get ⟨0, by omega⟩)).map some
  else
    .ok none

/-- pydantic's `self.dict()`: all declared fields as a mapping, the `id`
field included. -/
def Record.dict (r : Record) : Mapping :=
  ("id", .vstr r.id) :: r.fields

/-- `BaseModel.firedict(self)`: `values = self.dict(); del values["id"];
return values` — the record's mapping with the `id` key removed. -/
def firedict (r : Record) : Mapping :=
  (Record.dict r).eraseP (fun kv => kv.1 == "id")

/-- `BaseModel.save(self)`: the source calls `self.to_dict()`, but neither
this class nor pydantic's `BaseModel` defines a `to_dict` method (pydantic
exposes `dict()`, and the source's own `firedict()` is never called), so the
attribute lookup fails with `AttributeError` before anything is written. -/
def save (r : Record) (c : Collection) : Except LavaError Collection :=
  .error (.attributeError "to_dict")

/-! Concrete instantiations of the external boundary, used to evaluate the
definitions on concrete inputs. -/

/-- A validator that accepts every mapping unchanged. -/
def acceptAll : Validator := fun m => some m

/-- A validator that rejects every mapping. -/
def rejectAll : Validator := fun _ => none

/-- Sample document handles and their converted records. -/
def da : Doc := ⟨"a", true, [("x", .vint 1)]⟩

def db : Doc := ⟨"b", true, [("x", .vint 2)]⟩

def dc : Doc := ⟨"c", true, [("x", .vint 3)]⟩

def ra : Record := ⟨"a", [("x", .vint 1)]⟩

def rb : Record := ⟨"b", [("x", .vint 2)]⟩

def rc : Record := ⟨"c", [("x", .vint 3)]⟩

/-- A store with two documents matching `email == "a@b.com"`. -/
def cTwo : Collection :=
  ⟨[("u1", [("email", .vstr "a@b.com")]), ("u2", [("email", .vstr "a@b.com")])]⟩

/-- A store with a single document. -/
def cOne : Collection := ⟨[("u1", [("email", .vstr "a@b.com")])]⟩

/-- C6: for every document handle whose conversion succeeds, the Record
produced by `get_from_firestore_document` has `id` equal to the document's
identity and fields equal to the validated content of the document's
mapping; the `id` comes from the handle, never from the mapping. -/
theorem C6_fromHandle_id_from_identity (validate : Validator) (doc : Doc)
    (r : Record) (h : get_from_firestore_document validate doc = .ok r) :
    r.id = doc.id ∧ validate doc.content = some r.fields := by
  unfold get_from_firestore_document from_dict modelInit at h
  by_cases hid : doc.content.any (fun kv => kv.1 == "id")
  · simp [hid] at h
  · simp [hid] at h
    cases hv : validate doc.content with
    | none => simp [hv] at h
    | some fs =>
        simp [hv] at h
        subst h
        exact ⟨rfl, rfl⟩

/-- Witness for C6 at a concrete document and validator. -/
theorem C6_fromHandle_id_from_identity_witness :
    ra.id = da.id ∧ acceptAll da.content = some ra.fields :=
  C6_fromHandle_id_from_identity acceptAll da ra rfl

/-- C9: `get_from_firestore_documents` converts a finite ordered sequence of
handles elementwise, preserving order and length (expressed by `Forall₂`);
and as soon as any single conversion fails, the whole conversion fails with
an error and no partial result. -/
theorem C9_fromHandles_order_and_atomicity (validate : Validator)
    (docs : List Doc) :
    (∀ rs, get_from_firestore_documents validate docs = .ok rs →
       rs.length = docs.length ∧
       List.Forall₂
         (fun doc r => get_from_firestore_document validate doc = .ok r)
         docs rs) ∧
    ((∃ doc ∈ docs, ∃ e, get_from_firestore_document validate doc = .error e) →
       ∃ e, get_from_firestore_documents validate docs = .error e) := by
  induction docs with
  | nil =>
      constructor
      · intro rs h
        unfold get_from_firestore_documents at h
        cases h
        exact ⟨rfl, List.Forall₂.nil⟩
      · rintro ⟨doc, hmem, _⟩
        exact absurd hmem (List.not_mem_nil doc)
  | cons d ds ih =>
      constructor
      · intro rs h
        unfold get_from_firestore_documents at h
        cases hd : get_from_firestore_document validate d with
        | error e => rw [hd] at h; exact absurd h (by simp)
        | ok r =>
            rw [hd] at h
            cases hds : get_from_firestore_documents validate ds with
            | error e =>
                rw [hds] at h
                exact absurd h (by simp)
            | ok rs' =>
                rw [hds] at h
                cases h
                obtain ⟨hlen, hall⟩ := ih.1 rs' hds
                exact ⟨by simp [hlen], List.Forall₂.cons hd hall⟩
      · rintro ⟨doc, hmem, e, herr⟩
        unfold get_from_firestore_documents
        cases hd : get_from_firestore_document validate d with
        | error e' => exact ⟨e', rfl⟩
        | ok r =>
            rcases List.mem_cons.mp hmem with heq | hmem'
            · subst heq
              rw [hd] at herr
              exact absurd herr (by simp)
            · obtain ⟨e', herr'⟩ := ih.2 ⟨doc, hmem', e, herr⟩
              exact ⟨e', by rw [herr']⟩

/-- Witness for C9: both arms at concrete inputs — a successful conversion
of two handles, and an aborted conversion when the validator rejects. -/
theorem C9_fromHandles_order_and_atomicity_witness :
    ([ra, rb].length = [da, db].length ∧
     List.Forall₂
       (fun doc r => get_from_firestore_document acceptAll doc = .ok r)
       [da, db] [ra, rb]) ∧
    (∃ e, get_from_firestore_documents rejectAll [da] = .error e) :=
  ⟨(C9_fromHandles_order_and_atomicity acceptAll [da, db]).1 [ra, rb] rfl,
   (C9_fromHandles_order_and_atomicity rejectAll [da]).2
     ⟨da, by simp, .validationError, rfl⟩⟩

/-- C10: `from_dict(id, d)` on a mapping `d` that itself contains an `id`
key fails with the duplicate-keyword `TypeError` before any validation, so
the mapping's own `id` entry can never override the passed identity. -/
theorem C10_from_dict_duplicate_id (validate : Validator) (id : String)
    (d : Mapping) (h : ∃ v, ("id", v) ∈ d) :
    from_dict validate id d =
      .error (.typeError "got multiple values for keyword argument id") := by
  obtain ⟨v, hv⟩ := h
  unfold from_dict
  rw [if_pos]
  exact List.any_eq_true.mpr ⟨("id", v), hv, by simp⟩

/-- Witness for C10 at a concrete mapping carrying an `id` key. -/
theorem C10_from_dict_duplicate_id_witness :
    from_dict acceptAll "x" [("id", .vstr "y"), ("x", .vint 1)] =
      .error (.typeError "got multiple values for keyword argument id") :=
  C10_from_dict_duplicate_id acceptAll "x" _ ⟨.vstr "y", by simp⟩

/-- C7: `get_one_or_none_where` materializes the equality-query result set
and decides on its length: more than one match raises
`MultipleValuesLavaException`, exactly one match returns the converted
record, no match returns `None`. -/
theorem C7_get_one_or_none_where_cardinality (validate : Validator)
    (c : Collection) (field : String) (value : Value) :
    ((c.whereEq field value).length > 1 →
       get_one_or_none_where validate c field value =
         .error (.multipleValues "multiple values exist, expected only one value")) ∧
    (∀ h : (c.whereEq field value).length = 1,
       get_one_or_none_where validate c field value =
         (get_from_firestore_document validate
           ((c.whereEq field value).get ⟨0, by omega⟩)).map some) ∧
    ((c.whereEq field value).length = 0 →
       get_one_or_none_where validate c field value = .ok none) := by
  refine ⟨fun h => ?_, fun h => ?_, fun h => ?_⟩
  · unfold get_one_or_none_where
    rw [if_pos h]
  · unfold get_one_or_none_where
    rw [if_neg (by omega), dif_pos h]
  · unfold get_one_or_none_where
    rw [if_neg (by omega), dif_neg (by omega)]

/-- Witness for C7: all three branches at concrete stores — two matches, one
match, no match. -/
theorem C7_get_one_or_none_where_cardinality_witness :
    get_one_or_none_where acceptAll cTwo "email" (.vstr "a@b.com") =
      .error (.multipleValues "multiple values exist, expected only one value") ∧
    get_one_or_none_where acceptAll cOne "email" (.vstr "a@b.com") =
      .ok (some ⟨"u1", [("email", .vstr "a@b.com")]⟩) ∧
    get_one_or_none_where acceptAll cOne "email" (.vstr "x") = .ok none := by
  refine ⟨?_, ?_, ?_⟩
  · exact (C7_get_one_or_none_where_cardinality acceptAll cTwo "email"
      (.vstr "a@b.com")).1 (by decide)
  · rw [(C7_get_one_or_none_where_cardinality acceptAll cOne "email"
      (.vstr "a@b.com")).2.1 (by decide)]
    rfl
  · exact (C7_get_one_or_none_where_cardinality acceptAll cOne "email"
      (.vstr "x")).2.2 (by decide)

/-- C8: `get_by_id(id)` returns `None` without raising when no document with
identity `id` exists, and otherwise returns the conversion of the fetched
handle via `get_from_firestore_document`. -/
theorem C8_get_by_id_missing_and_present (validate : Validator)
    (c : Collection) (id : String) :
    (c.lookup id = none → get_by_id validate c id = .ok none) ∧
    (∀ m, c.lookup id = some m →
       get_by_id validate c id =
         (get_from_firestore_document validate ⟨id, true, m⟩).map some) := by
  constructor
  · intro h
    unfold get_by_id Collection.getDoc
    rw [h]
    rfl
  · intro m h
    unfold get_by_id Collection.getDoc
    rw [h]
    rfl

/-- Witness for C8: a missing identity yields `None`; a present identity
yields the converted record. -/
theorem C8_get_by_id_missing_and_present_witness :
    get_by_id acceptAll cOne "missing" = .ok none ∧
    get_by_id acceptAll cOne "u1" =
      .ok (some ⟨"u1", [("email", .vstr "a@b.com")]⟩) := by
  constructor
  · exact (C8_get_by_id_missing_and_present acceptAll cOne "missing").1 rfl
  · rw [(C8_get_by_id_missing_and_present acceptAll cOne "u1").2
      [("email", .vstr "a@b.com")] rfl]
    rfl

/-- C4: for every flag value and every function `f`, `lavaify` hands back the
decorator `wrapper`, and applying that decorator to `f` evaluates to `None`
rather than to a callable: `wrapper` defines the inner `func` but never
returns it. -/
theorem C4_lavaify_decorator_returns_none (validate : Validator) (b : Bool)
    (f : Unit → FuncResult) :
    lavaify validate (.flag b) = .decorator (wrapper validate b) ∧
    wrapper validate b f = none :=
  ⟨rfl, rfl⟩

/-- C1 (lines 97-139): at the claim's own inputs, `lavaify(False)` applied
to an operation evaluates to `None`, not to a callable operation — so the
wrapped operation cannot be called at all.  The inner function body that
`wrapper` builds but never returns does behave exactly as the claim states:
a list of 3 handles becomes 3 records in order, a single handle becomes one
record (not a sequence), and a generator becomes a lazy stream of
elementwise conversions. -/
theorem C1_wrapping_false_yields_none_not_callable :
    wrapper acceptAll false (fun _ => .list [da, db, dc]) = none ∧
    funcImpl acceptAll false (.list [da, db, dc]) = .ok (.many [ra, rb, rc]) ∧
    funcImpl acceptAll false (.single da) = .ok (.one ra) ∧
    funcImpl acceptAll false (.generator [da, db]) =
      .ok (.stream [.ok ra, .ok rb]) :=
  ⟨rfl, rfl, rfl, rfl⟩

/-- C2 (lines 114-134): at the claim's own inputs, `lavaify(True)` applied
to an operation also evaluates to `None` — the wrapped operation cannot be
called.  The never-returned inner body does behave as claimed: a drained
generator (or list) of length 0 yields `None`, length 1 yields one record,
length 2 raises `MultipleValuesLavaException`. -/
theorem C2_enforce_true_yields_none_not_callable :
    wrapper acceptAll true (fun _ => .generator [da, db]) = none ∧
    funcImpl acceptAll true (.generator []) = .ok .noValue ∧
    funcImpl acceptAll true (.generator [da]) = .ok (.one ra) ∧
    funcImpl acceptAll true (.generator [da, db]) =
      .error (.multipleValues "multiple values present, expected a single value") ∧
    funcImpl acceptAll true (.list []) = .ok .noValue ∧
    funcImpl acceptAll true (.list [da]) = .ok (.one ra) ∧
    funcImpl acceptAll true (.list [da, db]) =
      .error (.multipleValues "multiple values present, expected a single value") :=
  ⟨rfl, rfl, rfl, rfl, rfl, rfl, rfl⟩

/-- C3 (lines 109-113 and 136-137): the wrapped operation is `None`, so
calling it raises `TypeError`, never the shape `ValueError` the claim
describes.  The never-returned inner body does raise the shape error exactly
where claimed: under `enforce_one_or_none=False` only for an unrecognized
shape, and under `enforce_one_or_none=True` also for a bare single handle,
which is rejected rather than accepted as cardinality 1. -/
theorem C3_shape_error_branches_unreachable :
    wrapper acceptAll true (fun _ => .single da) = none ∧
    funcImpl acceptAll true (.single da) =
      .error (.valueError "Invalid document type, must be  a list or generator of firestore documents, when enforce_one_or_none is true") ∧
    funcImpl acceptAll true .other =
      .error (.valueError "Invalid document type, must be  a list or generator of firestore documents, when enforce_one_or_none is true") ∧
    funcImpl acceptAll false .other =
      .error (.valueError "Invalid document type, must be a single firestore document, or a list or generator of firestore documents") ∧
    funcImpl acceptAll false (.single da) = .ok (.one ra) ∧
    funcImpl acceptAll false (.list [da]) = .ok (.many [ra]) ∧
    funcImpl acceptAll false (.generator [da]) = .ok (.stream [.ok ra]) :=
  ⟨rfl, rfl, rfl, rfl, rfl, rfl, rfl⟩

/-- C5 (lines 168-175): `save` never writes `firedict(record)` — it calls
`self.to_dict()`, a method that does not exist, and fails with
`AttributeError` on every record, while the intended `firedict` mapping
(which indeed carries no `id` key) is never used. -/
theorem C5_save_never_writes_firedict :
    save ra cOne = .error (.attributeError "to_dict") ∧
    firedict ra = [("x", .vint 1)] ∧
    Mapping.lookup (firedict ra) "id" = none :=
  ⟨rfl, rfl, rfl⟩

end Lava
